import Mathlib

/-!
Verification of the instantiation / engine core of the wasmer repository.

The embedding covers two source files:
* `lib/c-api/src/wasm_c_api/instance.rs` — the C-API glue
  (`wasm_instance_new`, `wasm_instance_delete`, `wasm_instance_exports`);
* `tests/lib/engine-dummy/src/engine.rs` — the dummy `Engine`
  (`register_signature`, `lookup_signature`, `function_call_trampoline`,
  `validate`).

Parts of the runtime that those files call but that are not part of the
given sources (`Instance::new`, `SignatureRegistry`, the trap-catching call
path, export materialization) are modelled from the specification; each such
definition carries a doc comment saying so.
-/

namespace Wasmer

/-! ## Data model -/

/-- A WebAssembly value kind. -/
inductive ValType
  | i32
  | i64
  | f32
  | f64
deriving DecidableEq, Repr

/-- `FunctionType`: ordered parameter kinds and ordered result kinds,
with structural equality. -/
structure FunctionType where
  params : List ValType
  results : List ValType
deriving DecidableEq, Repr

/-- The kind/type of an `Extern`: function (with its `FunctionType`),
global, table or memory; the non-function kinds carry an abstract
type/limits descriptor. -/
inductive ExternType
  | func (ft : FunctionType)
  | global (g : Nat)
  | table (t : Nat)
  | memory (m : Nat)
deriving DecidableEq, Repr

/-- A runtime trap, carrying its human-readable message. -/
structure Trap where
  message : String
deriving DecidableEq, Repr

/-- An `Extern` value: its kind/type, together with whether the host
environment attached to it (if any) fails its setup hook during
instantiation. -/
structure Extern where
  ty : ExternType
  hostEnvInitFails : Bool
deriving DecidableEq, Repr

/-- A compiled module: its ordered declared imports, its ordered declared
exports, and whether its start function (if any) traps when invoked
(`some t` means the start function raises trap `t`). -/
structure Module where
  imports : List ExternType
  exports : List (String × ExternType)
  startTrap : Option Trap
deriving DecidableEq, Repr

/-! ## Signature registry (dummy engine) -/

/-- Position of the first occurrence of `t` in the list, if any. -/
def findTypeIdx : List FunctionType → FunctionType → Option Nat
  | [], _ => none
  | x :: xs, t => if x = t then some 0 else (findTypeIdx xs t).map (· + 1)

/-- Modelled from the spec: `SignatureRegistry` (wasmer-runtime, not among
the given sources) owns a bidirectional mapping between `FunctionType`s and
small indices; it grows monotonically and never shrinks. The list of
registered types is the mapping, an index being a position in the list. -/
structure SignatureRegistry where
  types : List FunctionType
deriving DecidableEq, Repr

/-- Modelled from the spec: `SignatureRegistry::register` interns a
`FunctionType`, returning the existing index when an equal type was already
registered and appending a fresh entry otherwise. State passing is
explicit: the updated registry is returned alongside the index. -/
def SignatureRegistry.register (r : SignatureRegistry) (t : FunctionType) :
    SignatureRegistry × Nat :=
  match findTypeIdx r.types t with
  | some i => (r, i)
  | none => (⟨r.types ++ [t]⟩, r.types.length)

/-- Modelled from the spec: `SignatureRegistry::lookup` returns the
`FunctionType` registered at the index, or `none` for an index foreign to
this registry. -/
def SignatureRegistry.lookup (r : SignatureRegistry) (sig : Nat) :
    Option FunctionType :=
  r.types.get? sig

/-! ## Dummy engine (tests/lib/engine-dummy/src/engine.rs) -/

/-- A `CompileError`, as reported by `Engine::validate` / `Engine::compile`. -/
inductive CompileError
  | validationFailed (message : String)
deriving DecidableEq, Repr

/-- The dummy engine: a signature registry (the `Tunables` policy is opaque
to every claim and is omitted). -/
structure DummyEngine where
  signatures : SignatureRegistry
deriving DecidableEq, Repr

/-- `DummyEngine::register_signature`: delegates to the owned
`SignatureRegistry`; explicit state passing returns the updated engine. -/
def DummyEngine.register_signature (e : DummyEngine) (func_type : FunctionType) :
    DummyEngine × Nat :=
  (⟨(e.signatures.register func_type).1⟩, (e.signatures.register func_type).2)

/-- `DummyEngine::lookup_signature`: delegates to the owned
`SignatureRegistry`. -/
def DummyEngine.lookup_signature (e : DummyEngine) (sig : Nat) :
    Option FunctionType :=
  e.signatures.lookup sig

/-- What a trampoline body does when invoked: return normally, or raise a
fault (the Rust source raises it as a panic). -/
inductive TrampolineOutcome
  | returns
  | fault (message : String)
deriving DecidableEq, Repr

/-- `VMTrampoline`: a function of the fixed trampoline calling convention
(context pointer, target body pointer, raw value buffer). -/
def VMTrampoline : Type := Nat → Nat → List Nat → TrampolineOutcome

/-- `dummy_trampoline`: always faults, with the message of the source's
panic (the dummy engine performs no real codegen, so Wasm function bodies
cannot be called). -/
def dummy_trampoline : VMTrampoline := fun _context _body _values =>
  .fault "Dummy engine can't call functions, since Wasm function bodies are not really compiled"

/-- `DummyEngine::function_call_trampoline`: returns the single dummy
trampoline for every signature. -/
def DummyEngine.function_call_trampoline (_e : DummyEngine) (_sig : Nat) :
    Option VMTrampoline :=
  some dummy_trampoline

/-- Modelled from the spec: the runtime's trap-catching call path
(wasmer-runtime's trap handlers, not among the given sources) invokes a
trampoline and converts any fault it raises into a `Trap` that aborts only
the current call — never the process. Invocation therefore totally returns
an `Except` value: `ok` on normal return, `error` with the trap otherwise. -/
def invokeTrampoline (t : VMTrampoline) (context body : Nat) (values : List Nat) :
    Except Trap Unit :=
  match t context body values with
  | .returns => .ok ()
  | .fault msg => .error ⟨msg⟩

/-- `DummyEngine::validate`: marks all Wasm modules as valid, returning
`Ok(())` for every input and touching no engine state; explicit state
passing returns the (unchanged) engine. -/
def DummyEngine.validate (e : DummyEngine) (_binary : List Nat) :
    DummyEngine × Except CompileError Unit :=
  (e, .ok ())

/-- The set of inputs that fail the dummy engine's structural/type
validation: empty, since the dummy engine marks all Wasm modules as valid
(source comment on `validate`). -/
def dummyFailsValidation (_binary : List Nat) : Prop := False

/-! ## Instantiation (modelled from the spec) -/

/-- A `LinkError`: a declared import is missing from the supplied values, or
a supplied value's kind/type does not match the declaration. -/
inductive LinkError
  | missingImport
  | incompatibleType
deriving DecidableEq, Repr

/-- A host-environment initialization failure. -/
inductive HostEnvInitError
  | initHookFailed
deriving DecidableEq, Repr

/-- `InstantiationError`: the three error outcomes of `Instance::new`
(link failure, start-function trap, host-environment init failure). -/
inductive InstantiationError
  | link (e : LinkError)
  | start (t : Trap)
  | hostEnvInitialization (e : HostEnvInitError)
deriving DecidableEq, Repr

/-- A live instance: its exports (name and `Extern`), in the order they
were materialized. -/
structure Instance where
  exports : List (String × Extern)
deriving DecidableEq, Repr

/-- Modelled from the spec: materialization of one declared export into an
`Extern` by the Artifact (not among the given sources) — deterministic,
producing a value of the declared kind/type with no failing host hook. -/
def materializeExport (t : ExternType) : Extern := ⟨t, false⟩

/-- Modelled from the spec: positional import resolution (the
`OrderedResolver`, not among the given sources). Supplied values are
consumed strictly in order, one-to-one against the declared import list,
each type-checked against its declaration; a missing tail or a kind/type
mismatch is a `LinkError`, and supplied values beyond the declared imports
are ignored. -/
def resolveImports : List ExternType → List Extern → Except LinkError (List Extern)
  | [], _ => .ok []
  | _ :: _, [] => .error .missingImport
  | d :: ds, e :: es =>
    if e.ty = d then
      match resolveImports ds es with
      | .ok rest => .ok (e :: rest)
      | .error err => .error err
    else .error .incompatibleType

/-- Modelled from the spec: `Instance::new` (wasmer crate, not among the
given sources). Step 1: resolve and type-check all imports — any failure is
a link error and no code runs. Step 2/3: materialize state and initialize
host environments in supplied order — a failing setup hook aborts before
the start function runs. Step 4: run the start function — a trap aborts
instantiation and the partial instance is discarded. Step 5: return the
instance, whose exports are materialized in module declaration order. -/
def Instance.new (m : Module) (resolver : List Extern) :
    Except InstantiationError Instance :=
  match resolveImports m.imports resolver with
  | .error le => .error (.link le)
  | .ok resolved =>
    match resolved.find? (fun ex => ex.hostEnvInitFails) with
    | some _ => .error (.hostEnvInitialization .initHookFailed)
    | none =>
      match m.startTrap with
      | some t => .error (.start t)
      | none => .ok ⟨m.exports.map (fun p => (p.1, materializeExport p.2))⟩

/-! ## C API glue (lib/c-api/src/wasm_c_api/instance.rs) -/

/-- Opaque store handle (`wasm_store_t`); its contents are irrelevant to
every function in the given sources. -/
structure wasm_store_t where
  id : Nat
deriving DecidableEq, Repr

/-- `wasm_module_t`: wraps a `Module`. -/
structure wasm_module_t where
  inner : Module
deriving DecidableEq, Repr

/-- `wasm_extern_t`: wraps an `Extern` (cloning shares state, so the
wrapped value is carried as-is). -/
structure wasm_extern_t where
  inner : Extern
deriving DecidableEq, Repr

/-- `wasm_extern_vec_t`: a C vector of extern handles; `data = none`
models a null data pointer. -/
structure wasm_extern_vec_t where
  data : Option (List wasm_extern_t)
deriving DecidableEq, Repr

/-- `wasm_extern_vec_t::into_slice`: the underlying slice, or `none` for a
null data pointer. -/
def wasm_extern_vec_t.into_slice (v : wasm_extern_vec_t) :
    Option (List wasm_extern_t) :=
  v.data

/-- `wasm_trap_t`: wraps a `Trap`. -/
structure wasm_trap_t where
  inner : Trap
deriving DecidableEq, Repr

/-- `wasm_instance_t`: wraps a (shared handle to an) `Instance`. -/
structure wasm_instance_t where
  inner : Instance
deriving DecidableEq, Repr

/-- The error kinds stored through `update_last_error`. -/
inductive StoredError
  | link (e : LinkError)
  | host (e : HostEnvInitError)
deriving DecidableEq, Repr

/-- Everything `wasm_instance_new` communicates to its caller: the returned
instance handle, the value written through the `traps` out-parameter
(`none` = not written), and the error stored via `update_last_error`
(`none` = not stored). -/
structure InstanceNewOutcome where
  instanceOut : Option wasm_instance_t
  trapsOut : Option wasm_trap_t
  lastError : Option StoredError
deriving DecidableEq, Repr

/-- `wasm_instance_new`: returns on a null module or import vector;
otherwise builds the ordered resolver from the supplied externs, taking at
most the module's declared import count, and dispatches on `Instance::new`:
a link error is stored as the last error, a start-function trap is written
through the `traps` out-parameter, a host-env init error is stored as the
last error; only on success is an instance handle returned. The `store`
argument is ignored — the module's own store is used. -/
def wasm_instance_new (_store : Option wasm_store_t)
    (module_arg : Option wasm_module_t) (imports_arg : Option wasm_extern_vec_t) :
    InstanceNewOutcome :=
  match module_arg with
  | none => ⟨none, none, none⟩
  | some module_v =>
    match imports_arg with
    | none => ⟨none, none, none⟩
    | some imports =>
      let wasm_module := module_v.inner
      let module_import_count := wasm_module.imports.length
      let resolver : List Extern :=
        ((imports.into_slice.getD []).map
          (fun imp => imp.inner)).take module_import_count
      match Instance.new wasm_module resolver with
      | .ok inst => ⟨some ⟨inst⟩, none, none⟩
      | .error (.link le) => ⟨none, none, some (.link le)⟩
      | .error (.start rt) => ⟨none, some ⟨rt⟩, none⟩
      | .error (.hostEnvInitialization he) => ⟨none, none, some (.host he)⟩

/-- The resolver `wasm_instance_new` builds for a module and an import
vector: the wrapped externs, truncated to the declared import count. -/
def apiResolver (module_v : wasm_module_t) (imports : wasm_extern_vec_t) :
    List Extern :=
  ((imports.into_slice.getD []).map
    (fun imp => imp.inner)).take module_v.inner.imports.length

/-- `wasm_instance_delete`: the body is empty — it drops the handle. The
second component records whether any guest code was executed: none is. -/
def wasm_instance_delete (_instance_arg : Option wasm_instance_t) :
    Unit × Bool :=
  ((), false)

/-- `wasm_instance_exports`: one extern handle per instance export, in the
order the instance's export map yields them. -/
def wasm_instance_exports (inst : wasm_instance_t) : List wasm_extern_t :=
  inst.inner.exports.map (fun p => ⟨p.2⟩)

/-! ## Registry lemmas -/

theorem findTypeIdx_get (xs : List FunctionType) (t : FunctionType) (i : Nat)
    (h : findTypeIdx xs t = some i) : xs.get? i = some t := by
  induction xs generalizing i with
  | nil => simp [findTypeIdx] at h
  | cons x xs ih =>
    by_cases hx : x = t
    · simp [findTypeIdx, hx] at h
      subst hx
      simp [← h]
    · simp [findTypeIdx, hx] at h
      obtain ⟨j, hj, hji⟩ := h
      subst hji
      simpa using ih j hj

theorem findTypeIdx_none_append (xs : List FunctionType) (t : FunctionType)
    (h : findTypeIdx xs t = none) :
    findTypeIdx (xs ++ [t]) t = some xs.length := by
  induction xs with
  | nil => simp [findTypeIdx]
  | cons x xs ih =>
    by_cases hx : x = t
    · simp [findTypeIdx, hx] at h
    · simp [findTypeIdx, hx] at h ⊢
      exact ih h

theorem register_of_found (r : SignatureRegistry) (t : FunctionType) (i : Nat)
    (h : findTypeIdx r.types t = some i) : r.register t = (r, i) := by
  simp [SignatureRegistry.register, h]

theorem register_self (r : SignatureRegistry) (t : FunctionType) :
    findTypeIdx (r.register t).1.types t = some (r.register t).2 := by
  unfold SignatureRegistry.register
  cases h : findTypeIdx r.types t with
  | some i => simp [h]
  | none => simpa [h] using findTypeIdx_none_append r.types t h

theorem lookup_register (r : SignatureRegistry) (t : FunctionType) :
    (r.register t).1.lookup (r.register t).2 = some t :=
  findTypeIdx_get _ _ _ (register_self r t)

theorem get?_lt {α : Type} (xs : List α) (n : Nat) (a : α)
    (h : xs.get? n = some a) : n < xs.length := by
  induction xs generalizing n with
  | nil => simp at h
  | cons x xs ih =>
    cases n with
    | zero => simp
    | succ n =>
      rw [List.get?_cons_succ] at h
      exact Nat.succ_lt_succ (ih n h)

theorem get?_append_left {α : Type} (xs ys : List α) (n : Nat)
    (h : n < xs.length) : (xs ++ ys).get? n = xs.get? n := by
  induction xs generalizing n with
  | nil => simp at h
  | cons x xs ih =>
    cases n with
    | zero => simp
    | succ n =>
      rw [List.cons_append, List.get?_cons_succ, List.get?_cons_succ]
      exact ih n (Nat.lt_of_succ_lt_succ h)

theorem lookup_register_mono (r : SignatureRegistry) (t' : FunctionType)
    (i : Nat) (ft : FunctionType) (h : r.lookup i = some ft) :
    (r.register t').1.lookup i = some ft := by
  unfold SignatureRegistry.register
  cases hf : findTypeIdx r.types t' with
  | some j => simpa using h
  | none =>
    simp only [SignatureRegistry.lookup] at h ⊢
    rw [get?_append_left _ _ _ (get?_lt _ _ _ h)]
    exact h

/-! ## Claim theorems about the dummy engine -/

/-- C5: for FunctionTypes registered through the same engine's signature
registry, the returned indices are equal iff the types are equal;
registering an equal FunctionType twice returns the same index and leaves
the registry unchanged (idempotence), and `lookup_signature` of a returned
index recovers the registered FunctionType. -/
theorem C5_signature_registry_dedup (e : DummyEngine) (t1 t2 : FunctionType) :
    ((((e.register_signature t1).1.register_signature t2).2
        = (e.register_signature t1).2) ↔ t1 = t2)
    ∧ (e.register_signature t1).1.lookup_signature (e.register_signature t1).2
        = some t1
    ∧ ((e.register_signature t1).1.register_signature t1).1
        = (e.register_signature t1).1 := by
  have hidem : ((e.signatures.register t1).1.register t1)
      = ((e.signatures.register t1).1, (e.signatures.register t1).2) :=
    register_of_found _ _ _ (register_self e.signatures t1)
  refine ⟨⟨fun hii => ?_, fun htt => ?_⟩, ?_, ?_⟩
  · have l1 : (e.signatures.register t1).1.lookup (e.signatures.register t1).2
        = some t1 := lookup_register e.signatures t1
    have l1' : ((e.signatures.register t1).1.register t2).1.lookup
        (e.signatures.register t1).2 = some t1 :=
      lookup_register_mono _ t2 _ _ l1
    have l2 : ((e.signatures.register t1).1.register t2).1.lookup
        ((e.signatures.register t1).1.register t2).2 = some t2 :=
      lookup_register (e.signatures.register t1).1 t2
    simp only [DummyEngine.register_signature] at hii
    rw [hii] at l2
    rw [l2] at l1'
    exact (Option.some_inj.mp l1').symm
  · subst htt
    simp [DummyEngine.register_signature, hidem]
  · simp [DummyEngine.register_signature, DummyEngine.lookup_signature,
      lookup_register e.signatures t1]
  · simp [DummyEngine.register_signature, hidem]

/-- C6: the dummy engine's `validate` returns a `CompileError` exactly for
the inputs that fail its structural/type validation — which, for the dummy
engine, is no input at all — and it never mutates any persistent engine
state. -/
theorem C6_validate_ok_and_pure (e : DummyEngine) (binary : List Nat) :
    ((∃ err, (e.validate binary).2 = .error err) ↔ dummyFailsValidation binary)
    ∧ (e.validate binary).1 = e := by
  refine ⟨⟨fun h => ?_, fun h => h.elim⟩, rfl⟩
  obtain ⟨err, herr⟩ := h
  simp [DummyEngine.validate] at herr

/-- C7: the trampoline the dummy engine returns from
`function_call_trampoline` is its single always-faulting trampoline, and
invoking it (through the trap-catching call path) always aborts the current
call with a `Trap` — invocation totally returns an `error` value, never
terminating the process. -/
theorem C7_dummy_trampoline_traps_current_call_only (e : DummyEngine)
    (sig context body : Nat) (values : List Nat) :
    e.function_call_trampoline sig = some dummy_trampoline
    ∧ ∃ t : Trap,
        invokeTrampoline dummy_trampoline context body values = .error t :=
  ⟨rfl, ⟨⟨"Dummy engine can't call functions, since Wasm function bodies are not really compiled"⟩, rfl⟩⟩


/-! ## Instantiation lemmas -/

theorem resolveImports_short (ds : List ExternType) (es : List Extern)
    (h : es.length < ds.length) :
    ∃ le, resolveImports ds es = Except.error le := by
  induction ds generalizing es with
  | nil => exact absurd h (by simp)
  | cons d ds ih =>
    cases es with
    | nil => exact ⟨.missingImport, rfl⟩
    | cons e es =>
      by_cases ht : e.ty = d
      · obtain ⟨le, hle⟩ := ih es (Nat.lt_of_succ_lt_succ h)
        exact ⟨le, by simp [resolveImports, ht, hle]⟩
      · exact ⟨.incompatibleType, by simp [resolveImports, ht]⟩

theorem wasm_instance_new_eq (store : Option wasm_store_t) (m : wasm_module_t)
    (imps : wasm_extern_vec_t) :
    wasm_instance_new store (some m) (some imps) =
      match Instance.new m.inner (apiResolver m imps) with
      | .ok inst => ⟨some ⟨inst⟩, none, none⟩
      | .error (.link le) => ⟨none, none, some (.link le)⟩
      | .error (.start rt) => ⟨none, some ⟨rt⟩, none⟩
      | .error (.hostEnvInitialization he) => ⟨none, none, some (.host he)⟩ :=
  rfl

theorem Instance.new_ok_exports (m : Module) (resolver : List Extern)
    (inst : Instance) (h : Instance.new m resolver = .ok inst) :
    inst.exports = m.exports.map (fun p => (p.1, materializeExport p.2)) := by
  unfold Instance.new at h
  cases h1 : resolveImports m.imports resolver with
  | error le =>
    rw [h1] at h
    exact Except.noConfusion h
  | ok resolved =>
    simp only [h1] at h
    cases h2 : resolved.find? (fun ex => ex.hostEnvInitFails) with
    | some b =>
      rw [h2] at h
      exact Except.noConfusion h
    | none =>
      rw [h2] at h
      cases h3 : m.startTrap with
      | some t =>
        rw [h3] at h
        exact Except.noConfusion h
      | none =>
        rw [h3] at h
        injection h with h4
        subst h4
        rfl

/-! ## Claim theorems about the C API glue -/

/-- C1: for every module and every import vector supplying fewer externs
than the module's declared import count, `wasm_instance_new` returns a link
error outcome: no instance handle, no trap written, a `LinkError` stored as
the last error — the function is total, so it never panics and never
returns a partial instance. -/
theorem C1_short_import_list_gives_link_error (store : Option wasm_store_t)
    (m : wasm_module_t) (imps : wasm_extern_vec_t)
    (h : (imps.into_slice.getD []).length < m.inner.imports.length) :
    ∃ le : LinkError,
      wasm_instance_new store (some m) (some imps) =
        ⟨none, none, some (.link le)⟩ := by
  have hlen : (apiResolver m imps).length < m.inner.imports.length := by
    simp only [apiResolver, List.length_take, List.length_map]
    omega
  obtain ⟨le, hle⟩ :=
    resolveImports_short m.inner.imports (apiResolver m imps) hlen
  refine ⟨le, ?_⟩
  rw [wasm_instance_new_eq]
  simp [Instance.new, hle]

/-- Witness for C1: a module declaring one import, an empty import
vector. -/
theorem C1_short_import_list_gives_link_error_witness :
    ∃ le : LinkError,
      wasm_instance_new none (some ⟨⟨[.global 0], [("g", .global 0)], none⟩⟩)
        (some ⟨some []⟩) = ⟨none, none, some (.link le)⟩ :=
  C1_short_import_list_gives_link_error none
    ⟨⟨[.global 0], [("g", .global 0)], none⟩⟩ ⟨some []⟩ (by decide)

/-- C2: instantiation consumes exactly the first `import_count` supplied
values, in order: with at least as many supplied values as declared
imports, any two import vectors agreeing on their first `import_count`
externs produce identical `wasm_instance_new` outcomes — the tail beyond
`import_count` is never observed, and excess supplied values are silently
ignored, not an error. -/
theorem C2_truncation_excess_imports_ignored (store : Option wasm_store_t)
    (m : wasm_module_t) (xs ys : List wasm_extern_t)
    (_hx : m.inner.imports.length ≤ xs.length)
    (hagree : xs.take m.inner.imports.length = ys.take m.inner.imports.length) :
    wasm_instance_new store (some m) (some ⟨some xs⟩) =
      wasm_instance_new store (some m) (some ⟨some ys⟩) := by
  rw [wasm_instance_new_eq, wasm_instance_new_eq]
  have hres : apiResolver m ⟨some xs⟩ = apiResolver m ⟨some ys⟩ := by
    simp only [apiResolver, wasm_extern_vec_t.into_slice, Option.getD_some,
      ← List.map_take, hagree]
  rw [hres]

/-- Witness for C2: a module declaring one import, once supplied with two
externs and once with the first extern alone. -/
theorem C2_truncation_excess_imports_ignored_witness :
    wasm_instance_new none (some ⟨⟨[.global 0], [], none⟩⟩)
        (some ⟨some [⟨⟨.global 0, false⟩⟩, ⟨⟨.table 3, false⟩⟩]⟩) =
      wasm_instance_new none (some ⟨⟨[.global 0], [], none⟩⟩)
        (some ⟨some [⟨⟨.global 0, false⟩⟩]⟩) :=
  C2_truncation_excess_imports_ignored none ⟨⟨[.global 0], [], none⟩⟩
    [⟨⟨.global 0, false⟩⟩, ⟨⟨.table 3, false⟩⟩] [⟨⟨.global 0, false⟩⟩]
    (by decide) (by decide)

/-- C3: when import resolution succeeds, every host environment
initializes, and the module's start function traps, `wasm_instance_new`
returns no instance handle, writes the trap through the `traps`
out-parameter, and stores no other error — the partially constructed
instance is discarded and never observable by the caller. -/
theorem C3_start_trap_gives_no_instance_and_stores_trap
    (store : Option wasm_store_t) (m : wasm_module_t)
    (imps : wasm_extern_vec_t) (t : Trap) (resolved : List Extern)
    (hres : resolveImports m.inner.imports (apiResolver m imps) = .ok resolved)
    (hhost : resolved.find? (fun ex => ex.hostEnvInitFails) = none)
    (hstart : m.inner.startTrap = some t) :
    wasm_instance_new store (some m) (some imps) = ⟨none, some ⟨t⟩, none⟩ := by
  rw [wasm_instance_new_eq]
  simp [Instance.new, hres, hhost, hstart]

/-- Witness for C3: a module with no imports whose start function traps. -/
theorem C3_start_trap_gives_no_instance_and_stores_trap_witness :
    wasm_instance_new none
        (some ⟨⟨[], [("m", .memory 1)], some ⟨"start trapped"⟩⟩⟩)
        (some ⟨some []⟩) =
      ⟨none, some ⟨⟨"start trapped"⟩⟩, none⟩ :=
  C3_start_trap_gives_no_instance_and_stores_trap none
    ⟨⟨[], [("m", .memory 1)], some ⟨"start trapped"⟩⟩⟩ ⟨some []⟩
    ⟨"start trapped"⟩ [] rfl rfl rfl

/-- C4: for every instance handle returned by `wasm_instance_new`,
`wasm_instance_exports` yields one extern handle per module export, in
exactly the module's export declaration order; the result is a pure
function of the module, hence identical on every run. -/
theorem C4_exports_in_module_declaration_order (store : Option wasm_store_t)
    (m : wasm_module_t) (imps : wasm_extern_vec_t) (instOut : wasm_instance_t)
    (h : (wasm_instance_new store (some m) (some imps)).instanceOut
          = some instOut) :
    wasm_instance_exports instOut =
      m.inner.exports.map (fun p => ⟨materializeExport p.2⟩) := by
  rw [wasm_instance_new_eq] at h
  cases hI : Instance.new m.inner (apiResolver m imps) with
  | ok inst =>
    rw [hI] at h
    have hexp := Instance.new_ok_exports m.inner (apiResolver m imps) inst hI
    injection h with h2
    subst h2
    simp [wasm_instance_exports, hexp, List.map_map, Function.comp]
  | error err =>
    cases err with
    | link le =>
      rw [hI] at h
      exact Option.noConfusion h
    | start rt =>
      rw [hI] at h
      exact Option.noConfusion h
    | hostEnvInitialization he =>
      rw [hI] at h
      exact Option.noConfusion h

/-- Witness for C4: a module with two declared exports, instantiated with
no imports. -/
theorem C4_exports_in_module_declaration_order_witness :
    wasm_instance_exports
        ⟨⟨[("f", ⟨.func ⟨[], []⟩, false⟩), ("g", ⟨.global 1, false⟩)]⟩⟩ =
      (⟨⟨[], [("f", .func ⟨[], []⟩), ("g", .global 1)],
          none⟩⟩ : wasm_module_t).inner.exports.map
        (fun p => ⟨materializeExport p.2⟩) :=
  C4_exports_in_module_declaration_order none
    ⟨⟨[], [("f", .func ⟨[], []⟩), ("g", .global 1)], none⟩⟩ ⟨some []⟩
    ⟨⟨[("f", ⟨.func ⟨[], []⟩, false⟩), ("g", ⟨.global 1, false⟩)]⟩⟩ rfl

/-- C8: when import resolution succeeds but a host environment attached to
a resolved import fails its setup hook, `wasm_instance_new` stores the
host-init error as the last error and returns no instance handle; no trap
is written — the start function (even one that would trap) never runs, so
the failure occurs before start. -/
theorem C8_host_env_init_failure_gives_no_instance (store : Option wasm_store_t)
    (m : wasm_module_t) (imps : wasm_extern_vec_t)
    (resolved : List Extern) (bad : Extern)
    (hres : resolveImports m.inner.imports (apiResolver m imps) = .ok resolved)
    (hbad : resolved.find? (fun ex => ex.hostEnvInitFails) = some bad) :
    wasm_instance_new store (some m) (some imps) =
      ⟨none, none, some (.host .initHookFailed)⟩ := by
  rw [wasm_instance_new_eq]
  simp [Instance.new, hres, hbad]

/-- Witness for C8: one import whose attached host environment fails its
setup hook, in a module whose start function would trap. -/
theorem C8_host_env_init_failure_gives_no_instance_witness :
    wasm_instance_new none
        (some ⟨⟨[.global 7], [], some ⟨"unreached start"⟩⟩⟩)
        (some ⟨some [⟨⟨.global 7, true⟩⟩]⟩) =
      ⟨none, none, some (.host .initHookFailed)⟩ :=
  C8_host_env_init_failure_gives_no_instance none
    ⟨⟨[.global 7], [], some ⟨"unreached start"⟩⟩⟩
    ⟨some [⟨⟨.global 7, true⟩⟩]⟩ [⟨.global 7, true⟩] ⟨.global 7, true⟩
    rfl rfl

/-- C9: `wasm_instance_delete` executes no guest code, and calling it on an
absent (null) handle is a no-op — it is a total function returning unit,
with the guest-code flag `false`, for every argument including `none`. -/
theorem C9_delete_runs_no_guest_code (inst : Option wasm_instance_t) :
    wasm_instance_delete inst = ((), false)
    ∧ wasm_instance_delete none = ((), false) :=
  ⟨rfl, rfl⟩

/-- C10: the outcome of `wasm_instance_new` (instance returned, trap
written, error stored) is identical for every value of its store argument,
including an absent (null) store — the store parameter is ignored. -/
theorem C10_store_argument_ignored (s1 s2 : Option wasm_store_t)
    (module_arg : Option wasm_module_t)
    (imports_arg : Option wasm_extern_vec_t) :
    wasm_instance_new s1 module_arg imports_arg =
      wasm_instance_new s2 module_arg imports_arg :=
  rfl

end Wasmer
